import Mathlib

/-!
Verification of the state-synchronization core of the Tid Hotels PMS backend
(`src/api/app.py`): the in-memory JSON store `hotel_data`, the id counters,
the sync log, persistence (`save_data`/`load_data`), the clear mutation
(`clear_data`) and the socket handlers, shallowly embedded in Lean.

Python values flowing through the store are JSON-serializable values, so the
store is modelled by an inductive `Json` type; Python `dict`s become ordered
association lists (insertion order preserved, assignment replaces in place),
and code paths that raise become `Option`-valued functions (`none` = the
Python call raised and the surrounding request failed).
-/

namespace TidHotels

/-- A JSON-serializable Python value: `None`, `bool`, number, `str`,
`list`, `dict` (an insertion-ordered association list). -/
inductive Json where
  | null : Json
  | bool : Bool → Json
  | num : Rat → Json
  | str : String → Json
  | arr : List Json → Json
  | obj : List (String × Json) → Json

/-- Lookup modelling `d.get(k)` on a Python dict modelled as an association list: the value at
the first matching key. -/
def lookupKey : List (String × Json) → String → Option Json
  | [], _ => none
  | (k', v) :: rest, k => if k' = k then some v else lookupKey rest k

/-- Assignment modelling `d[k] = v` on a Python dict: replace the value in place if the key is
present, else append the new key at the end (insertion order). -/
def setKey : List (String × Json) → String → Json → List (String × Json)
  | [], k, v => [(k, v)]
  | (k', v') :: rest, k, v =>
      if k' = k then (k, v) :: rest else (k', v') :: setKey rest k v

/-- Lookup modelling `d.get(k, default)`. -/
def getD (fs : List (String × Json)) (k : String) (d : Json) : Json :=
  (lookupKey fs k).getD d

theorem lookupKey_setKey_self (fs : List (String × Json)) (k : String) (v : Json) :
    lookupKey (setKey fs k v) k = some v := by
  induction fs with
  | nil => simp [setKey, lookupKey]
  | cons p rest ih =>
    obtain ⟨pk, pv⟩ := p
    by_cases h : pk = k
    · simp [setKey, h, lookupKey]
    · simp [setKey, h, lookupKey, ih]

theorem lookupKey_setKey_ne (fs : List (String × Json)) (k k' : String) (v : Json)
    (h : k' ≠ k) : lookupKey (setKey fs k v) k' = lookupKey fs k' := by
  have h' : k ≠ k' := Ne.symm h
  induction fs with
  | nil => simp [setKey, lookupKey, h']
  | cons p rest ih =>
    obtain ⟨pk, pv⟩ := p
    by_cases hp : pk = k
    · subst hp
      simp [setKey, lookupKey, h']
    · simp [setKey, hp, lookupKey, ih]

/-- Read of one field, modelling `j.get(k)` where `j` must be a Python dict; `none` models the
`AttributeError` raised when `j` is not a dict. Used to read a single field
of a store snapshot. -/
def jfield (j : Json) (k : String) : Option Json :=
  match j with
  | .obj fs => lookupKey fs k
  | _ => none

/-- Whether a JSON value is a Python dict. -/
def jIsObj : Json → Bool
  | .obj _ => true
  | _ => false

/-- The fields of `INITIAL_DATA` (app.py lines 20-34), keys in source order. -/
def initialFields : List (String × Json) := [
  ("rooms", .arr []),
  ("guests", .arr []),
  ("reservations", .arr []),
  ("transactions", .arr []),
  ("loyaltyTransactions", .arr []),
  ("walkInTransactions", .arr []),
  ("orders", .arr []),
  ("employees", .arr []),
  ("syncLog", .arr []),
  ("maintenanceRequests", .arr []),
  ("roomTypes", .arr []),
  ("taxSettings", .obj [("isEnabled", .bool true), ("rate", .num 7.5)]),
  ("stopSell", .obj [])]

/-- The store literal `INITIAL_DATA` (app.py lines 20-34). -/
def INITIAL_DATA : Json := .obj initialFields

/-- The initial `id_counters` value (app.py lines 38-49). -/
def initialCounters : Json := .obj [
  ("rooms", .num 1),
  ("guests", .num 1),
  ("reservations", .num 1),
  ("transactions", .num 1),
  ("loyaltyTransactions", .num 1),
  ("walkInTransactions", .num 1),
  ("orders", .num 1),
  ("employees", .num 1),
  ("maintenanceRequests", .num 1),
  ("roomTypes", .num 1)]

/-- Content of `hotel_data.json`: either a value that `json.load` parses, or
bytes on which `json.load` raises. -/
inductive FileContent where
  | valid (j : Json)
  | invalid

/-- The process state of app.py: the globals `hotel_data` and `id_counters`,
the durable file (`none` = `DATA_FILE` does not exist), and the console
(`print` output, where the error logging goes). -/
structure ServerState where
  hotelData : Json
  idCounters : Json
  file : Option FileContent
  console : List String

/-- Externally visible effects, in the order the code performs them:
assignment of a fresh dict to `hotel_data` (the store mutation), the sync-log
append, a `socketio.emit` to all clients (`broadcast`), a durable write
(`persist`), and an `emit` to a single connecting client (`sendTo`). -/
inductive Event where
  | storeMutation (newStore : Json)
  | logAppend (entry : Json)
  | broadcast (payload : Json)
  | persist (payload : Json)
  | sendTo (payload : Json)

def isBroadcast : Event → Bool
  | .broadcast _ => true
  | _ => false

def isPersist : Event → Bool
  | .persist _ => true
  | _ => false

def isSendTo : Event → Bool
  | .sendTo _ => true
  | _ => false

/-- The JSON object `{data: hotel_data, counters: id_counters}` that
`save_data` (app.py lines 66-75) serializes to `DATA_FILE`. -/
def savePayload (hd ic : Json) : Json := .obj [("data", hd), ("counters", ic)]

/-- Function `save_data` (app.py lines 66-75). `writeOk = false` models the file write
raising: the exception is caught, the error printed, and nothing else
changes — in particular `hotel_data` and `id_counters` are untouched. -/
def save_data (writeOk : Bool) (st : ServerState) : ServerState × List Event :=
  if writeOk then
    ({ st with file := some (.valid (savePayload st.hotelData st.idCounters)) },
     [.persist (savePayload st.hotelData st.idCounters)])
  else
    ({ st with console := st.console ++ ["Error saving data"] }, [])

/-- Function `broadcast_update` (app.py lines 77-80): emits the snapshot to all
clients FIRST, and only then calls `save_data`. -/
def broadcast_update (writeOk : Bool) (st : ServerState) : ServerState × List Event :=
  let r := save_data writeOk st
  (r.1, .broadcast st.hotelData :: r.2)

/-- Function `load_data` (app.py lines 53-64): if the file exists, parse it and take
`loaded.get(...)` for the `data` key and
for the `counters` key; on any exception (unparseable
file, or `.get` raising because the parsed value is not a dict) print the
error and reset only `hotel_data` to `INITIAL_DATA` — `id_counters` keeps
its current value. Total: it never raises. -/
def load_data (st : ServerState) : ServerState :=
  match st.file with
  | none => st
  | some .invalid =>
      { st with hotelData := INITIAL_DATA,
                console := st.console ++ ["Error loading data"] }
  | some (.valid j) =>
      match j with
      | .obj fs =>
          { st with hotelData := getD fs "data" INITIAL_DATA,
                    idCounters := getD fs "counters" st.idCounters }
      | _ =>
          { st with hotelData := INITIAL_DATA,
                    console := st.console ++ ["Error loading data"] }

/-- The process state right after process start, before `load_data` runs:
`hotel_data = INITIAL_DATA.copy()`, `id_counters` at its literal initial
value, with whatever `DATA_FILE` happens to hold on disk. -/
def startupState (f : Option FileContent) : ServerState :=
  { hotelData := INITIAL_DATA, idCounters := initialCounters,
    file := f, console := [] }

/-- A sync-log entry dict as built by `add_sync_log` (app.py lines 84-88). -/
def syncLogEntry (timestamp message level : String) : Json :=
  .obj [("timestamp", .str timestamp), ("message", .str message),
        ("level", .str level)]

/-- The list-level effect of `add_sync_log` on the `syncLog` entry of `hotel_data`:
`insert(0, entry)` then, if the length exceeds 100, keep only the first 100
(app.py lines 89-91). -/
def addSyncLogEntries (e : Json) (log : List Json) : List Json :=
  if (e :: log).length > 100 then (e :: log).take 100 else e :: log

/-- Function `add_sync_log` (app.py lines 82-91), with `datetime.now()` injected as
`now`. `none` models the `KeyError`/`AttributeError` raised when
`hotel_data` is not a dict or the `syncLog` entry of `hotel_data` is missing or not a
list. -/
def add_sync_log (now message level : String) (hd : Json) : Option Json :=
  match hd with
  | .obj fs =>
      match lookupKey fs "syncLog" with
      | some (.arr l) =>
          some (.obj (setKey fs "syncLog"
            (.arr (addSyncLogEntries (syncLogEntry now message level) l))))
      | _ => none
  | _ => none

/-- Function `get_next_id` (app.py lines 93-97) acting on the `id_counters` dict:
read the current value, store value + 1, return the current value. `none`
models the `KeyError` (entity absent) or `TypeError` (value not a number). -/
def get_next_id (entity : String) (ic : Json) : Option (Rat × Json) :=
  match ic with
  | .obj fs =>
      match lookupKey fs entity with
      | some (.num n) => some (n, .obj (setKey fs entity (.num (n + 1))))
      | _ => none
  | _ => none

/-- The fresh dict that `clear_data` (app.py lines 113-127) assigns to
`hotel_data`, built from the fields `fs` of the old store. -/
def clearedStore (fs : List (String × Json)) : Json := .obj [
  ("rooms", .arr []),
  ("guests", .arr []),
  ("reservations", .arr []),
  ("transactions", .arr []),
  ("loyaltyTransactions", .arr []),
  ("walkInTransactions", .arr []),
  ("orders", .arr []),
  ("employees", .arr []),
  ("syncLog", .arr []),
  ("maintenanceRequests", .arr []),
  ("roomTypes", getD fs "roomTypes" (.arr [])),
  ("taxSettings", getD fs "taxSettings"
      (.obj [("isEnabled", .bool true), ("rate", .num 7.5)])),
  ("stopSell", .obj [])]

/-- Endpoint `clear_data` (app.py lines 109-130): replace `hotel_data` with the fresh
dict, append the `All data cleared` warn log entry, then
`broadcast_update()` (emit, then save). `none` models the `AttributeError`
when the current `hotel_data` is not a dict (the endpoint fails, nothing
mutated, nothing emitted). -/
def clear_data (now : String) (writeOk : Bool) (st : ServerState) :
    Option (ServerState × List Event) :=
  match st.hotelData with
  | .obj fs =>
      let d1 := clearedStore fs
      match add_sync_log now "All data cleared" "warn" d1 with
      | some d2 =>
          let r := broadcast_update writeOk { st with hotelData := d2 }
          some (r.1,
            .storeMutation d1 ::
            .logAppend (syncLogEntry now "All data cleared" "warn") :: r.2)
      | none => none
  | _ => none

/-- Handler `handle_connect` (app.py lines 134-137): print, then emit the full
current `hotel_data` to the connecting client. -/
def handle_connect (st : ServerState) : ServerState × List Event :=
  ({ st with console := st.console ++ ["Client connected"] },
   [.sendTo st.hotelData])

/-- An inbound event the single-threaded server loop handles: a socket
connect, a socket disconnect, or a `POST /api/data/clear` (with its
nondeterministic timestamp and write outcome made explicit). -/
inductive Request where
  | connect
  | disconnect
  | clearReq (now : String) (writeOk : Bool)

/-- Dispatch one request against the process state. A failed `clear_data`
returns a 500 with the state unmodified and no effect emitted. -/
def processRequest (st : ServerState) : Request → ServerState × List Event
  | .connect => handle_connect st
  | .disconnect =>
      ({ st with console := st.console ++ ["Client disconnected"] }, [])
  | .clearReq now writeOk =>
      match clear_data now writeOk st with
      | some r => r
      | none => (st, [])

/-- Serialized handling of a request sequence, concatenating the emitted
effect traces in order. -/
def runServer (st : ServerState) : List Request → ServerState × List Event
  | [] => (st, [])
  | r :: rs =>
      let p := processRequest st r
      let q := runServer p.1 rs
      (q.1, p.2 ++ q.2)

/-- Modelled from the spec: the per-entity create/update/delete mutation
routes are absent from `src/api/app.py` (only the allocator `get_next_id`
and `clear_data` exist). Per spec §4.1/§6, a create assigns its id through
the allocator exactly once, while update, delete and the clear operation
never touch the id counters (the `clear_data` of app.py indeed leaves
`id_counters` untouched). -/
inductive StoreOp where
  | create (entity : String)
  | update (entity : String)
  | delete (entity : String)
  | clear

/-- Modelled from the spec: the effect of one mutation on `id_counters`,
together with the id it assigns (creates only; a create whose entity has no
counter raises and assigns nothing). -/
def stepCounters (ic : Json) : StoreOp → Json × Option (String × Rat)
  | .create e =>
      match get_next_id e ic with
      | some p => (p.2, some (e, p.1))
      | none => (ic, none)
  | .update _ => (ic, none)
  | .delete _ => (ic, none)
  | .clear => (ic, none)

/-- Run a sequence of mutations over the counters, collecting the assigned
(entity, id) pairs in chronological order. -/
def runOps (ic : Json) : List StoreOp → Json × List (String × Rat)
  | [] => (ic, [])
  | op :: ops =>
      let p := stepCounters ic op
      let q := runOps p.1 ops
      (q.1, p.2.toList ++ q.2)

/-- The ids assigned over a mutation sequence, oldest first. -/
def assignedIds (ic : Json) (ops : List StoreOp) : List (String × Rat) :=
  (runOps ic ops).2

/-- The numeric counter currently stored for an entity, if any. -/
def lookupNum (ic : Json) (e : String) : Option Rat :=
  match ic with
  | .obj fs =>
      match lookupKey fs e with
      | some (.num n) => some n
      | _ => none
  | _ => none

/-- The store as it stands when `clear_data` reaches `broadcast_update`:
the fresh dict with the single `All data cleared` warn entry in its sync
log. -/
def clearedStoreLogged (now : String) (fs : List (String × Json)) : Json := .obj [
  ("rooms", .arr []),
  ("guests", .arr []),
  ("reservations", .arr []),
  ("transactions", .arr []),
  ("loyaltyTransactions", .arr []),
  ("walkInTransactions", .arr []),
  ("orders", .arr []),
  ("employees", .arr []),
  ("syncLog", .arr [syncLogEntry now "All data cleared" "warn"]),
  ("maintenanceRequests", .arr []),
  ("roomTypes", getD fs "roomTypes" (.arr [])),
  ("taxSettings", getD fs "taxSettings"
      (.obj [("isEnabled", .bool true), ("rate", .num 7.5)])),
  ("stopSell", .obj [])]

theorem add_sync_log_clearedStore (now : String) (fs : List (String × Json)) :
    add_sync_log now "All data cleared" "warn" (clearedStore fs)
      = some (clearedStoreLogged now fs) := rfl

theorem clear_data_eq (now : String) (ok : Bool) (st : ServerState)
    (fs : List (String × Json)) (h : st.hotelData = .obj fs) :
    clear_data now ok st =
      some ((save_data ok { st with hotelData := clearedStoreLogged now fs }).1,
        .storeMutation (clearedStore fs) ::
        .logAppend (syncLogEntry now "All data cleared" "warn") ::
        .broadcast (clearedStoreLogged now fs) ::
        (save_data ok { st with hotelData := clearedStoreLogged now fs }).2) := by
  unfold clear_data
  rw [h]
  rfl

/-- C1 (counterexample): at a store whose `stopSell` map is nonempty, the
clear operation resets `stopSell` to the empty map (app.py line 126) instead
of leaving it unchanged, and leaves the `All data cleared` warn entry in
`syncLog` (app.py line 128) instead of leaving it empty — so the claim that
after clear both settings are unchanged and `syncLog` is empty is false. -/
theorem clear_stopSell_counterexample :
    (clear_data "00:00:00" true
        { hotelData := .obj [("stopSell", .obj [("2025-01-01", .bool true)])],
          idCounters := initialCounters, file := none, console := [] }).map
      (fun r => (jfield r.1.hotelData "stopSell", jfield r.1.hotelData "syncLog"))
      = some (some (.obj []),
              some (.arr [syncLogEntry "00:00:00" "All data cleared" "warn"]))
    ∧ Json.obj [] ≠ Json.obj [("2025-01-01", .bool true)]
    ∧ Json.arr [syncLogEntry "00:00:00" "All data cleared" "warn"] ≠ Json.arr [] := by
  refine ⟨rfl, ?_, ?_⟩ <;> simp [syncLogEntry]

/-- C1 (amended): after `clear_data` on a dict store with fields `fs`, the
store is exactly `clearedStoreLogged now fs` — `roomTypes` and `taxSettings`
carried over from the old store, `stopSell` reset to the empty map, the
collections `rooms`, `guests`, `reservations`, `transactions`,
`loyaltyTransactions`, `walkInTransactions`, `orders`, `employees`,
`maintenanceRequests` empty, and `syncLog` holding exactly the one
`All data cleared` warn entry — while `id_counters` is untouched, so ids
assigned afterwards continue from their prior values. -/
theorem clear_data_frame (now : String) (ok : Bool) (st : ServerState)
    (fs : List (String × Json)) (h : st.hotelData = .obj fs) :
    (clear_data now ok st).map (fun r => (r.1.hotelData, r.1.idCounters))
      = some (clearedStoreLogged now fs, st.idCounters) := by
  rw [clear_data_eq now ok st fs h]
  cases ok <;> rfl

/-- Witness for C1 (amended) at the initial store. -/
theorem clear_data_frame_witness :
    (startupState none).hotelData = .obj initialFields ∧
    (clear_data "00:00:00" true (startupState none)).map
        (fun r => (r.1.hotelData, r.1.idCounters))
      = some (clearedStoreLogged "00:00:00" initialFields,
              (startupState none).idCounters) :=
  ⟨rfl, clear_data_frame "00:00:00" true (startupState none) initialFields rfl⟩

/-- C10: the initial store's `taxSettings` is exactly
`{isEnabled: true, rate: 7.5}`; `clear_data` falls back to this same default
when the pre-clear store has no `taxSettings` key, and otherwise carries the
existing `taxSettings` value over unchanged (app.py lines 32 and 125). -/
theorem taxSettings_default_and_carryover :
    jfield INITIAL_DATA "taxSettings"
        = some (.obj [("isEnabled", .bool true), ("rate", .num 7.5)])
    ∧ (∀ (now : String) (ok : Bool) (st : ServerState)
          (fs : List (String × Json)), st.hotelData = .obj fs →
        lookupKey fs "taxSettings" = none →
        (clear_data now ok st).map (fun r => jfield r.1.hotelData "taxSettings")
          = some (some (.obj [("isEnabled", .bool true), ("rate", .num 7.5)])))
    ∧ (∀ (now : String) (ok : Bool) (st : ServerState)
          (fs : List (String × Json)) (v : Json), st.hotelData = .obj fs →
        lookupKey fs "taxSettings" = some v →
        (clear_data now ok st).map (fun r => jfield r.1.hotelData "taxSettings")
          = some (some v)) := by
  refine ⟨rfl, ?_, ?_⟩
  · intro now ok st fs h hk
    rw [clear_data_eq now ok st fs h]
    cases ok <;> simp [save_data, jfield, clearedStoreLogged, lookupKey, getD, hk]
  · intro now ok st fs v h hk
    rw [clear_data_eq now ok st fs h]
    cases ok <;> simp [save_data, jfield, clearedStoreLogged, lookupKey, getD, hk]

/-- Witness for C10: the fallback branch at a store with no `taxSettings`
key, and the carry-over branch at a store with a custom `taxSettings`. -/
theorem taxSettings_default_and_carryover_witness :
    ({ hotelData := .obj [], idCounters := initialCounters, file := none,
       console := [] } : ServerState).hotelData = .obj []
    ∧ lookupKey ([] : List (String × Json)) "taxSettings" = none
    ∧ (clear_data "00:00:00" true
          { hotelData := .obj [], idCounters := initialCounters, file := none,
            console := [] }).map (fun r => jfield r.1.hotelData "taxSettings")
        = some (some (.obj [("isEnabled", .bool true), ("rate", .num 7.5)]))
    ∧ ({ hotelData := .obj [("taxSettings", .bool false)],
         idCounters := initialCounters, file := none,
         console := [] } : ServerState).hotelData
        = .obj [("taxSettings", .bool false)]
    ∧ lookupKey [(("taxSettings" : String), Json.bool false)] "taxSettings"
        = some (.bool false)
    ∧ (clear_data "00:00:00" true
          { hotelData := .obj [("taxSettings", .bool false)],
            idCounters := initialCounters, file := none, console := [] }).map
        (fun r => jfield r.1.hotelData "taxSettings")
        = some (some (.bool false)) :=
  ⟨rfl, rfl,
   taxSettings_default_and_carryover.2.1 "00:00:00" true _ [] rfl rfl,
   rfl, rfl,
   taxSettings_default_and_carryover.2.2 "00:00:00" true _
     [("taxSettings", .bool false)] (.bool false) rfl rfl⟩

/-- C2 (counterexample): in the effect trace of a successful clear at the
initial store, the broadcast is at index 2 and the durable persist at
index 3 — the snapshot is broadcast BEFORE the state is persisted
(`broadcast_update`, app.py lines 77-80, calls `socketio.emit` first and
`save_data` after), so the claimed order "persist, and only then broadcast"
is false. -/
theorem broadcast_before_persist_counterexample :
    (clear_data "00:00:00" true (startupState none)).map
        (fun r => (r.2.findIdx isBroadcast, r.2.findIdx isPersist, r.2.length))
      = some (2, 3, 4)
    ∧ (2 : Nat) < 3
    ∧ ¬ ((3 : Nat) < 2) := by
  refine ⟨rfl, by decide, by decide⟩

/-- C2 (amended): for every committed clear with a successful durable write,
the four effects occur in the fixed order: store mutation, then sync-log
append, then broadcast of the snapshot, and only then the durable persist of
the complete state. -/
theorem clear_trace_order (now : String) (st : ServerState)
    (fs : List (String × Json)) (h : st.hotelData = .obj fs) :
    (clear_data now true st).map (fun r => r.2)
      = some [.storeMutation (clearedStore fs),
              .logAppend (syncLogEntry now "All data cleared" "warn"),
              .broadcast (clearedStoreLogged now fs),
              .persist (savePayload (clearedStoreLogged now fs) st.idCounters)] := by
  rw [clear_data_eq now true st fs h]
  rfl

/-- Witness for C2 (amended) at the initial store. -/
theorem clear_trace_order_witness :
    (startupState none).hotelData = .obj initialFields ∧
    (clear_data "00:00:00" true (startupState none)).map (fun r => r.2)
      = some [.storeMutation (clearedStore initialFields),
              .logAppend (syncLogEntry "00:00:00" "All data cleared" "warn"),
              .broadcast (clearedStoreLogged "00:00:00" initialFields),
              .persist (savePayload (clearedStoreLogged "00:00:00" initialFields)
                          (startupState none).idCounters)] :=
  ⟨rfl, clear_trace_order "00:00:00" (startupState none) initialFields rfl⟩

/-- C7 (counterexample): when the durable write after a committed mutation
fails, `save_data` (app.py lines 66-75) only prints the error — the sync log
afterwards holds no entry at all (in particular no error-level entry), so
the claim that the failure is surfaced as a sync-log `error` entry is
false. -/
theorem save_failure_counterexample :
    (save_data false (startupState none)).1.hotelData = INITIAL_DATA
    ∧ jfield (save_data false (startupState none)).1.hotelData "syncLog"
        = some (.arr [])
    ∧ (save_data false (startupState none)).1.console = ["Error saving data"] :=
  ⟨rfl, rfl, rfl⟩

/-- C7 (amended): a failed durable write is logged to the console, raises
nothing (`save_data` is total), adds no sync-log entry, and leaves the
in-memory store, the counters and the durable file exactly as the mutation
committed them — shown both for `save_data` alone and for a clear whose
write fails: the cleared store and untouched counters survive the failure
(no rollback). -/
theorem save_failure_no_rollback :
    (∀ st : ServerState,
        save_data false st
          = ({ st with console := st.console ++ ["Error saving data"] }, []))
    ∧ (∀ (now : String) (st : ServerState) (fs : List (String × Json)),
        st.hotelData = .obj fs →
        (clear_data now false st).map
            (fun r => (r.1.hotelData, r.1.idCounters, r.1.file, r.2))
          = some (clearedStoreLogged now fs, st.idCounters, st.file,
              [.storeMutation (clearedStore fs),
               .logAppend (syncLogEntry now "All data cleared" "warn"),
               .broadcast (clearedStoreLogged now fs)])) := by
  refine ⟨fun st => rfl, ?_⟩
  intro now st fs h
  rw [clear_data_eq now false st fs h]
  rfl

/-- Witness for C7 (amended) at the initial store. -/
theorem save_failure_no_rollback_witness :
    (startupState none).hotelData = .obj initialFields ∧
    (clear_data "00:00:00" false (startupState none)).map
        (fun r => (r.1.hotelData, r.1.idCounters, r.1.file, r.2))
      = some (clearedStoreLogged "00:00:00" initialFields,
          (startupState none).idCounters, (startupState none).file,
          [.storeMutation (clearedStore initialFields),
           .logAppend (syncLogEntry "00:00:00" "All data cleared" "warn"),
           .broadcast (clearedStoreLogged "00:00:00" initialFields)]) :=
  ⟨rfl, save_failure_no_rollback.2 "00:00:00" (startupState none) initialFields rfl⟩

/-- C8: every committed clear emits exactly one broadcast, and its payload
is the post-mutation store (the final `hotel_data`); a clear that fails
emits nothing — no broadcast for a rejected mutation. -/
theorem clear_broadcast_exactly_once :
    (∀ (now : String) (ok : Bool) (st : ServerState)
        (fs : List (String × Json)), st.hotelData = .obj fs →
      (clear_data now ok st).map
          (fun r => (r.2.filter isBroadcast, r.2.countP isBroadcast,
                     r.1.hotelData))
        = some ([.broadcast (clearedStoreLogged now fs)], 1,
                clearedStoreLogged now fs))
    ∧ (∀ (now : String) (ok : Bool) (st : ServerState),
        clear_data now ok st = none →
        processRequest st (.clearReq now ok) = (st, [])) := by
  constructor
  · intro now ok st fs h
    rw [clear_data_eq now ok st fs h]
    cases ok <;> rfl
  · intro now ok st h
    simp [processRequest, h]

/-- Witness for C8: a committed clear at the initial store emits one
broadcast carrying the post-mutation snapshot; a clear at a non-dict store
fails and emits nothing. -/
theorem clear_broadcast_exactly_once_witness :
    (startupState none).hotelData = .obj initialFields ∧
    (clear_data "00:00:00" true (startupState none)).map
        (fun r => (r.2.filter isBroadcast, r.2.countP isBroadcast,
                   r.1.hotelData))
      = some ([.broadcast (clearedStoreLogged "00:00:00" initialFields)], 1,
              clearedStoreLogged "00:00:00" initialFields) ∧
    clear_data "00:00:00" true
        { hotelData := .null, idCounters := initialCounters, file := none,
          console := [] } = none ∧
    processRequest
        { hotelData := .null, idCounters := initialCounters, file := none,
          console := [] } (.clearReq "00:00:00" true)
      = ({ hotelData := .null, idCounters := initialCounters, file := none,
           console := [] }, []) :=
  ⟨rfl,
   clear_broadcast_exactly_once.1 "00:00:00" true (startupState none)
     initialFields rfl,
   rfl,
   clear_broadcast_exactly_once.2 "00:00:00" true _ rfl⟩

/-- C4: for every store state and counter map, writing the durable artifact
`{data: hotel_data, counters: id_counters}` with `save_data` and
reloading it with `load_data` at a restart yields a store and counter map
identical to the pre-restart ones. -/
theorem save_load_roundtrip (st : ServerState) :
    load_data (startupState (save_data true st).1.file)
      = { startupState (save_data true st).1.file with
          hotelData := st.hotelData, idCounters := st.idCounters } := rfl

/-- C5: at startup, if `DATA_FILE` does not exist the state keeps its
initial values; if it exists but deserialization fails — the file is
unparseable, or parses to something that is not a dict so `.get` raises —
`load_data` (a total function: it never raises) leaves the state exactly at
the empty initialized store (`INITIAL_DATA` and the initial counters) and
logs the failure. -/
theorem load_data_fallback :
    load_data (startupState none) = startupState none
    ∧ load_data (startupState (some .invalid))
        = { startupState (some .invalid) with console := ["Error loading data"] }
    ∧ (∀ j : Json, jIsObj j = false →
        load_data (startupState (some (.valid j)))
          = { startupState (some (.valid j)) with
              console := ["Error loading data"] }) := by
  refine ⟨rfl, rfl, ?_⟩
  intro j h
  cases j <;> first | rfl | simp [jIsObj] at h

/-- Witness for C5 at a file that parses to a JSON list (not a dict). -/
theorem load_data_fallback_witness :
    jIsObj (.arr []) = false ∧
    load_data (startupState (some (.valid (.arr []))))
      = { startupState (some (.valid (.arr []))) with
          console := ["Error loading data"] } :=
  ⟨rfl, load_data_fallback.2.2 (.arr []) rfl⟩

theorem runServer_append (st : ServerState) (rs₁ rs₂ : List Request) :
    runServer st (rs₁ ++ rs₂)
      = ((runServer (runServer st rs₁).1 rs₂).1,
         (runServer st rs₁).2 ++ (runServer (runServer st rs₁).1 rs₂).2) := by
  induction rs₁ generalizing st with
  | nil => simp [runServer]
  | cons r rs ih => simp [runServer, ih]

/-- C9: the connect handler sends the connecting subscriber exactly one
`data_update` event carrying the full current snapshot, and in the
serialized server loop that send is positioned before every effect — in
particular every mutation-triggered broadcast — of the requests handled
after the connect. -/
theorem connect_snapshot_first :
    (∀ st : ServerState,
        (handle_connect st).2 = [.sendTo st.hotelData]
        ∧ (handle_connect st).2.countP isSendTo = 1)
    ∧ (∀ (st : ServerState) (rs₁ rs₂ : List Request),
        (runServer st (rs₁ ++ .connect :: rs₂)).2
          = (runServer st rs₁).2
            ++ .sendTo (runServer st rs₁).1.hotelData
            :: (runServer (handle_connect (runServer st rs₁).1).1 rs₂).2) := by
  refine ⟨fun st => ⟨rfl, rfl⟩, ?_⟩
  intro st rs₁ rs₂
  rw [runServer_append]
  simp [runServer, processRequest, handle_connect]

theorem addSyncLogEntries_eq_take (e : Json) (l : List Json) :
    addSyncLogEntries e l = (e :: l).take 100 := by
  unfold addSyncLogEntries
  split
  · rfl
  · exact (List.take_of_length_le (by omega)).symm

theorem addSyncLogEntries_length_le (e : Json) (l : List Json) :
    (addSyncLogEntries e l).length ≤ 100 := by
  rw [addSyncLogEntries_eq_take, List.length_take]
  omega

/-- C3: appending to a sync log of at most 100 entries keeps it at most 100
entries; the new entry is inserted at the head (newest-first), and the kept
entries are the first 100 of `new :: old` — whatever is dropped is a suffix
of the old log, i.e. its oldest entries; and any sequence of appends from a
log of at most 100 entries keeps the bound at every step. -/
theorem sync_log_bounded :
    (∀ (now msg lvl : String) (fs : List (String × Json)) (l : List Json),
        lookupKey fs "syncLog" = some (.arr l) → l.length ≤ 100 →
        add_sync_log now msg lvl (.obj fs)
            = some (.obj (setKey fs "syncLog"
                (.arr ((syncLogEntry now msg lvl :: l).take 100))))
        ∧ ((syncLogEntry now msg lvl :: l).take 100).length ≤ 100
        ∧ ((syncLogEntry now msg lvl :: l).take 100).head?
            = some (syncLogEntry now msg lvl))
    ∧ (∀ (es l₀ : List Json), l₀.length ≤ 100 →
        (es.foldl (fun l e => addSyncLogEntries e l) l₀).length ≤ 100) := by
  constructor
  · intro now msg lvl fs l hk _
    refine ⟨?_, ?_, rfl⟩
    · simp [add_sync_log, hk, addSyncLogEntries_eq_take]
    · rw [List.length_take]; omega
  · intro es
    induction es with
    | nil => intro l₀ h; simpa using h
    | cons e es ih =>
        intro l₀ _
        simpa using ih (addSyncLogEntries e l₀) (addSyncLogEntries_length_le e l₀)

/-- Witness for C3: a single append to an empty sync log, and a two-append
sequence from an empty log. -/
theorem sync_log_bounded_witness :
    lookupKey [(("syncLog" : String), Json.arr [])] "syncLog" = some (.arr [])
    ∧ ([] : List Json).length ≤ 100
    ∧ (add_sync_log "00:00:00" "m" "info" (.obj [("syncLog", .arr [])])
          = some (.obj (setKey [(("syncLog" : String), Json.arr [])] "syncLog"
              (.arr ((syncLogEntry "00:00:00" "m" "info" :: ([] : List Json)).take 100))))
        ∧ ((syncLogEntry "00:00:00" "m" "info" :: ([] : List Json)).take 100).length ≤ 100
        ∧ ((syncLogEntry "00:00:00" "m" "info" :: ([] : List Json)).take 100).head?
            = some (syncLogEntry "00:00:00" "m" "info"))
    ∧ (([Json.null, Json.null].foldl (fun l e => addSyncLogEntries e l)
          ([] : List Json)).length ≤ 100) :=
  ⟨rfl, by decide,
   sync_log_bounded.1 "00:00:00" "m" "info" [("syncLog", .arr [])] [] rfl (by decide),
   sync_log_bounded.2 [Json.null, Json.null] [] (by decide)⟩

theorem assignedIds_cons (ic : Json) (op : StoreOp) (ops : List StoreOp) :
    assignedIds ic (op :: ops)
      = (stepCounters ic op).2.toList ++ assignedIds (stepCounters ic op).1 ops := rfl

theorem get_next_id_lookupNum {e : String} {ic : Json} {n : Rat} {ic' : Json}
    (h : get_next_id e ic = some (n, ic')) :
    lookupNum ic e = some n ∧ lookupNum ic' e = some (n + 1)
    ∧ ∀ e', e' ≠ e → lookupNum ic' e' = lookupNum ic e' := by
  cases ic with
  | obj fs =>
      cases hk : lookupKey fs e with
      | none => simp [get_next_id, hk] at h
      | some v =>
          cases v with
          | num m =>
              rw [get_next_id, hk] at h
              obtain ⟨rfl, rfl⟩ : m = n ∧ Json.obj (setKey fs e (.num (m + 1))) = ic' := by
                have := Option.some.inj h
                exact ⟨congrArg Prod.fst this, congrArg Prod.snd this⟩
              refine ⟨by simp [lookupNum, hk], ?_, ?_⟩
              · simp [lookupNum, lookupKey_setKey_self]
              · intro e' he'
                simp [lookupNum, lookupKey_setKey_ne fs e e' _ he']
          | null => simp [get_next_id, hk] at h
          | bool b => simp [get_next_id, hk] at h
          | str s => simp [get_next_id, hk] at h
          | arr l => simp [get_next_id, hk] at h
          | obj o => simp [get_next_id, hk] at h
  | null => simp [get_next_id] at h
  | bool b => simp [get_next_id] at h
  | num m => simp [get_next_id] at h
  | str s => simp [get_next_id] at h
  | arr l => simp [get_next_id] at h

/-- Every id assigned at any point of a mutation sequence is at least the
counter value stored for its entity at the start of the sequence. -/
theorem assignedIds_lower_bound (ops : List StoreOp) (ic : Json) :
    ∀ p ∈ assignedIds ic ops, ∀ n, lookupNum ic p.1 = some n → n ≤ p.2 := by
  induction ops generalizing ic with
  | nil => simp [assignedIds, runOps]
  | cons op ops ih =>
      intro p hp n hn
      cases op with
      | create e =>
          cases hg : get_next_id e ic with
          | none =>
              rw [assignedIds_cons] at hp
              simp [stepCounters, hg] at hp
              exact ih ic p hp n hn
          | some q =>
              obtain ⟨m, ic'⟩ := q
              have hl := get_next_id_lookupNum hg
              rw [assignedIds_cons] at hp
              simp [stepCounters, hg] at hp
              rcases hp with rfl | hp'
              · simp at hn ⊢
                rw [hl.1] at hn
                exact le_of_eq (Option.some.inj hn).symm
              · by_cases he : p.1 = e
                · have h1 : lookupNum ic' p.1 = some (m + 1) := by rw [he]; exact hl.2.1
                  have h2 := ih ic' p hp' (m + 1) h1
                  rw [he, hl.1] at hn
                  have hnm : m = n := Option.some.inj hn
                  rw [← hnm]
                  linarith
                · have h1 : lookupNum ic' p.1 = lookupNum ic p.1 := hl.2.2 p.1 he
                  exact ih ic' p hp' n (h1.trans hn)
      | update e =>
          rw [assignedIds_cons] at hp
          simp [stepCounters] at hp
          exact ih ic p hp n hn
      | delete e =>
          rw [assignedIds_cons] at hp
          simp [stepCounters] at hp
          exact ih ic p hp n hn
      | clear =>
          rw [assignedIds_cons] at hp
          simp [stepCounters] at hp
          exact ih ic p hp n hn

/-- C6: over every sequence of create/update/delete/clear mutations, the
assigned ids are, per entity type, strictly increasing in order of
assignment — each newly assigned id exceeds every id previously assigned for
that entity type, so ids are unique per type and never reused; update,
delete and clear (which, like `clear_data` in app.py, never touch
`id_counters`) do not disturb this. -/
theorem ids_strictly_increasing (ic : Json) (ops : List StoreOp) :
    (assignedIds ic ops).Pairwise (fun a b => a.1 = b.1 → a.2 < b.2) := by
  induction ops generalizing ic with
  | nil => simp [assignedIds, runOps]
  | cons op ops ih =>
      cases op with
      | create e =>
          cases hg : get_next_id e ic with
          | none =>
              rw [assignedIds_cons]
              simp only [stepCounters, hg]
              exact ih ic
          | some q =>
              obtain ⟨m, ic'⟩ := q
              have hl := get_next_id_lookupNum hg
              rw [assignedIds_cons]
              simp only [stepCounters, hg]
              refine List.Pairwise.cons ?_ (ih ic')
              intro b hb he
              have he' : e = b.1 := he
              have h1 : lookupNum ic' b.1 = some (m + 1) := by
                rw [← he']; exact hl.2.1
              have h2 := assignedIds_lower_bound ops ic' b hb (m + 1) h1
              show m < b.2
              linarith
      | update e =>
          rw [assignedIds_cons]
          simp only [stepCounters]
          exact ih ic
      | delete e =>
          rw [assignedIds_cons]
          simp only [stepCounters]
          exact ih ic
      | clear =>
          rw [assignedIds_cons]
          simp only [stepCounters]
          exact ih ic

end TidHotels
